import Mathlib

/-!
Verification development for the TARDIS resource-provisioning core.

The Python sources embedded here are:
* `tardis/adapters/sites/slurm.py` — the Slurm site adapter
  (`deploy_resource`, `resource_status`, `terminate_resource`,
  `handle_exceptions`, the squeue state translator);
* `tardis/adapter/exoscale.py` — the Exoscale adapter's
  `handle_exceptions`;
* `tardis/resources/drone.py` — the `Drone` entity, its metrics,
  observer registry and `state` setter.

Machine integers and timestamps are modelled as `Int`/`Nat`; Python
exceptions as explicit `Except` values; the few collaborator methods whose
bodies are not part of the embedded sources are modelled from the design
document and carry a doc comment starting `Modelled from the spec:`.
-/

/-- Canonical resource status, the members of `ResourceStatus` used by the
adapters (`interfaces/siteadapter.py`): Booting, Running, Stopped, Deleted,
Error. -/
inductive ResourceStatus where
  | Booting
  | Running
  | Stopped
  | Deleted
  | Error
  deriving DecidableEq, Repr

/-- The Slurm job-state translation table from `SlurmAdapter.__init__`
(`slurm.py` lines 65-84): the `StaticMapping` passed as default argument to
the `State` translator function. -/
def slurmStateTable : List (String × ResourceStatus) :=
  [("CANCELLED", ResourceStatus.Deleted),
   ("COMPLETED", ResourceStatus.Deleted),
   ("COMPLETING", ResourceStatus.Running),
   ("CONFIGURING", ResourceStatus.Booting),
   ("PENDING", ResourceStatus.Booting),
   ("PREEMPTED", ResourceStatus.Deleted),
   ("RESV_DEL_HOLD", ResourceStatus.Stopped),
   ("REQUEUE_FED", ResourceStatus.Booting),
   ("REQUEUE_HOLD", ResourceStatus.Booting),
   ("REQUEUED", ResourceStatus.Booting),
   ("RESIZING", ResourceStatus.Running),
   ("RUNNING", ResourceStatus.Running),
   ("SIGNALING", ResourceStatus.Running),
   ("SPECIAL_EXIT", ResourceStatus.Booting),
   ("STAGE_OUT", ResourceStatus.Running),
   ("STOPPED", ResourceStatus.Stopped),
   ("SUSPENDED", ResourceStatus.Stopped)]

/-- The Slurm job state codes that have an entry in the translation table. -/
def slurmJobStateCodes : List String := slurmStateTable.map Prod.fst

/-- The `State` translator function of `slurm.py`:
`translator.get(x, default=ResourceStatus.Error)` — dictionary lookup with
default `Error`. -/
def slurmStateTranslator (x : String) : ResourceStatus :=
  (((slurmStateTable.find? fun p => p.1 == x).map Prod.snd).getD
    ResourceStatus.Error)

/-- Exceptions that can be raised inside an adapter's remote-call body,
as distinguished by the `except` clauses of the two `handle_exceptions`
context managers. `otherError` stands for any exception matching none of
the named classes. -/
inductive RawExc where
  | commandExecutionFailure
  | tardisResourceStatusUpdateFailed
  | timeoutError
  | cloudStackClientException
  | valueError
  | otherError
  deriving DecidableEq, Repr

/-- Outcome of an adapter's exception-translation boundary.
`tardisTimeout`/`tardisError` record the `raise ... from e` cause;
`tardisResourceStatusUpdateFailed` is raised without a cause in
`slurm.py` (plain `raise TardisResourceStatusUpdateFailed`);
`uncaught e` means the original exception propagates untranslated
(no matching `except` clause). -/
inductive HandledExc where
  | tardisResourceStatusUpdateFailed
  | tardisTimeout (cause : RawExc)
  | tardisError (cause : RawExc)
  | uncaught (e : RawExc)
  deriving DecidableEq, Repr

namespace SlurmAdapter

/-- `SlurmAdapter.handle_exceptions` (`slurm.py` lines 159-171): in clause
order, `CommandExecutionFailure` is re-raised as
`TardisResourceStatusUpdateFailed` (no cause), a
`TardisResourceStatusUpdateFailed` is re-raised unchanged, an asyncio
`TimeoutError` becomes `TardisTimeout from te`, and any other exception
becomes `TardisError from ex`. -/
def handle_exceptions : RawExc → HandledExc
  | RawExc.commandExecutionFailure => HandledExc.tardisResourceStatusUpdateFailed
  | RawExc.tardisResourceStatusUpdateFailed =>
      HandledExc.tardisResourceStatusUpdateFailed
  | RawExc.timeoutError => HandledExc.tardisTimeout RawExc.timeoutError
  | e => HandledExc.tardisError e

end SlurmAdapter

namespace ExoscaleAdapter

/-- `ExoscaleAdapter.handle_exceptions` (`exoscale.py` lines 67-74): an
asyncio `TimeoutError` becomes `TardisTimeout from te`, a
`CloudStackClientException` becomes `TardisError from ce`; any other
exception matches no clause and propagates untranslated. -/
def handle_exceptions : RawExc → HandledExc
  | RawExc.timeoutError => HandledExc.tardisTimeout RawExc.timeoutError
  | RawExc.cloudStackClientException =>
      HandledExc.tardisError RawExc.cloudStackClientException
  | e => HandledExc.uncaught e

end ExoscaleAdapter

/-- A Python value appearing in an adapter response dictionary: either a
string (squeue output fields) or an int (an already-parsed job id). -/
inductive PyVal where
  | str (s : String)
  | int (n : Int)
  deriving DecidableEq, Repr

/-- Python `int(x)` as applied by the `JobId` translator function: the
identity on ints; on a string, parses a nonnegative decimal literal (the
only shape a squeue job id can have); `none` models the `ValueError`
raised on any other string (such as the empty string). -/
def pyInt : PyVal → Option Int
  | PyVal.int n => some n
  | PyVal.str s => (s.toNat?).map Int.ofNat

/-- A response dictionary as passed to `handle_response` by the Slurm
adapter. Only the keys the `key_translator` can look up, plus the
misspelled `"JobID"` key produced by the unknown-handle fallback of
`resource_status` (`slurm.py` line 136), are relevant; `none` means the
key is absent from the dictionary. -/
structure SlurmResponse where
  jobIdKey : Option PyVal := none
  jobIDKey : Option PyVal := none
  stateKey : Option String := none
  deriving Repr

/-- The translated response produced by `handle_response`: a partial
record over the attribute keys named by the `key_translator`
(`remote_resource_uuid` ← `"JobId"`, `resource_status` ← `"State"`). -/
structure TranslatedResponse where
  remote_resource_uuid : Option Int := none
  resource_status : Option ResourceStatus := none
  deriving DecidableEq, Repr

/-- Modelled from the spec: `SiteAdapter.handle_response`
(`interfaces/siteadapter.py`, not among the embedded sources) "turns
provider-native responses into canonical resource-status records" (§4.1):
for each `(translated_key, key)` pair of the `key_translator` it looks
`key` up in the response, skips the pair when the key is absent, and
otherwise stores `translator_functions[key]` applied to the value. The
`key_translator` and `translator_functions` are the ones built in
`SlurmAdapter.__init__` (`slurm.py` lines 60-86); `int(x)` on a
non-numeric string raises, modelled as `none` for the whole call. -/
def SlurmAdapter.handle_response (r : SlurmResponse) :
    Option TranslatedResponse :=
  match r.jobIdKey with
  | none =>
      some { remote_resource_uuid := none,
             resource_status := r.stateKey.map slurmStateTranslator }
  | some v =>
      (pyInt v).map fun n =>
        { remote_resource_uuid := some n,
          resource_status := r.stateKey.map slurmStateTranslator }

/-- The mutable attribute dictionary of one Slurm resource, restricted to
the fields `slurm.py` reads or writes. Timestamps are integers
(`datetime` values under an arbitrary linear encoding). -/
structure SlurmAttrs where
  remote_resource_uuid : Int
  created : Int
  updated : Int
  resource_status : ResourceStatus
  deriving DecidableEq, Repr

/-- Python `{**resource_attributes, **translated}`: fields present in the
translated response override the originals. -/
def mergeTranslated (attrs : SlurmAttrs) (t : TranslatedResponse) :
    SlurmAttrs :=
  { attrs with
    remote_resource_uuid := t.remote_resource_uuid.getD attrs.remote_resource_uuid,
    resource_status := t.resource_status.getD attrs.resource_status }

/-- One row of parsed squeue output (`slurm_status_updater`): the fields
`JobId`, `Host`, `State`, all strings, with `State` already stripped. -/
structure SqueueRow where
  jobId : String
  host : String
  state : String
  deriving Repr

/-- The `AsyncCacheMap` holding the latest squeue batch, as
`resource_status` observes it after `await self._slurm_status.update_status()`:
the parsed rows keyed by job id string, and the time of the last
successful refresh (`last_update`). -/
structure SlurmStatusCache where
  data : List (String × SqueueRow)
  last_update : Int
  deriving Repr

/-- Dictionary lookup `self._slurm_status[str(resource_uuid)]`; `none`
models the `KeyError` branch. -/
def SlurmStatusCache.lookup (c : SlurmStatusCache) (key : String) :
    Option SqueueRow :=
  ((c.data.find? fun p => p.1 == key).map Prod.snd)

/-- `SlurmAdapter.resource_status` (`slurm.py` lines 119-143), after the
cache refresh: look the resource's handle up in the latest batch. On
`KeyError`, if `(last_update - created).total_seconds() < 0` raise
`TardisResourceStatusUpdateFailed` (modelled as `Except.error`, the
attributes untouched); otherwise substitute the dictionary
`{"JobID": remote_resource_uuid, "State": "COMPLETED"}` (note the
misspelled `JobID` key). Either way the found or substituted response is
translated by `handle_response` and merged over the attributes after
`updated` is set to the current time. -/
def SlurmAdapter.resource_status (cache : SlurmStatusCache)
    (attrs : SlurmAttrs) (now : Int) : Except HandledExc SlurmAttrs :=
  match cache.lookup (toString attrs.remote_resource_uuid) with
  | some row =>
      match SlurmAdapter.handle_response
          { jobIdKey := some (PyVal.str row.jobId),
            stateKey := some row.state } with
      | some t => Except.ok (mergeTranslated { attrs with updated := now } t)
      | none => Except.error (SlurmAdapter.handle_exceptions RawExc.valueError)
  | none =>
      if cache.last_update - attrs.created < 0 then
        Except.error HandledExc.tardisResourceStatusUpdateFailed
      else
        match SlurmAdapter.handle_response
            { jobIDKey := some (PyVal.int attrs.remote_resource_uuid),
              stateKey := some "COMPLETED" } with
        | some t => Except.ok (mergeTranslated { attrs with updated := now } t)
        | none => Except.error (SlurmAdapter.handle_exceptions RawExc.valueError)

/-- The `scancel` invocation of `terminate_resource`: succeeds when the
provider still knows the handle; on an already-gone handle the command
fails and the executor raises `CommandExecutionFailure`. -/
def scancel (handleKnown : Bool) : Except RawExc Unit :=
  if handleKnown then Except.ok () else Except.error RawExc.commandExecutionFailure

/-- `SlurmAdapter.terminate_resource` (`slurm.py` lines 145-153): run
`scancel`, then set `resource_status` to `Stopped` and `updated` to now,
and return `handle_response({"JobId": uuid}, **resource_attributes)` —
the response holds only the job id, so only `remote_resource_uuid` is
re-translated and every other returned field comes from the updated
attributes. -/
def SlurmAdapter.terminate_resource (attrs : SlurmAttrs) (now : Int)
    (handleKnown : Bool) : Except RawExc SlurmAttrs :=
  match scancel handleKnown with
  | Except.error e => Except.error e
  | Except.ok _ =>
      let attrs' := { attrs with resource_status := ResourceStatus.Stopped,
                                 updated := now }
      match SlurmAdapter.handle_response
          { jobIdKey := some (PyVal.int attrs'.remote_resource_uuid) } with
      | some t => Except.ok (mergeTranslated attrs' t)
      | none => Except.error RawExc.valueError

/-- The literal text preceding the capture group of the submit-output
pattern `r"^Submitted batch job (\d*)"`. -/
def submittedMarker : String := "Submitted batch job "

/-- Split a character sequence at every newline, as `re.MULTILINE` makes
`^` match at the start of the string and after every `'\n'`. -/
def splitAtNewlines : List Char → List (List Char)
  | [] => [[]]
  | c :: rest =>
      match splitAtNewlines rest with
      | [] => [[]]
      | line :: lines =>
          if c = '\n' then [] :: line :: lines else (c :: line) :: lines

/-- `re.findall` of `r"^Submitted batch job (\d*)"` with `re.MULTILINE`
over the sbatch stdout: for every line that starts with the literal
marker, the (possibly empty) maximal digit run following it is captured. -/
def submittedJobIdCaptures (stdout : String) : List (List Char) :=
  (splitAtNewlines stdout.data).filterMap fun line =>
    if submittedMarker.data.isPrefixOf line then
      some ((line.drop submittedMarker.data.length).takeWhile Char.isDigit)
    else none

/-- Python `int(s)` on a capture of `(\d*)`: the digits read as a decimal
numeral; `none` models the `ValueError` of `int("")` on an empty capture. -/
def decDigitsToNat : List Char → Option Nat
  | [] => none
  | ds => some (ds.foldl (fun acc c => acc * 10 + (c.toNat - 48)) 0)

/-- `int(pattern.findall(result.stdout)[0])` (`slurm.py` line 109):
`none` models the `IndexError` on an empty match list and the
`ValueError` of `int("")` on an empty capture. -/
def parseJobId (stdout : String) : Option Nat :=
  match submittedJobIdCaptures stdout with
  | [] => none
  | c :: _ => decDigitsToNat c

/-- Modelled from the spec: `SiteAdapter.drone_uuid`
(`interfaces/siteadapter.py`, not among the embedded sources) builds the
human-readable resource name "derived from id + provider" (§3) from the
site name and the stringified provider-native id. -/
def droneUuid (site_name uuid : String) : String :=
  site_name ++ "-" ++ uuid

/-- The attribute fields written by a successful
`SlurmAdapter.deploy_resource` (`slurm.py` lines 110-116). -/
structure DeployAttrs where
  remote_resource_uuid : Int
  created : Int
  updated : Int
  drone_uuid : String
  resource_status : ResourceStatus
  deriving DecidableEq, Repr

/-- `SlurmAdapter.deploy_resource` (`slurm.py` lines 94-117), given the
stdout of the sbatch invocation and the current time: parse the job id
from stdout via the multiline pattern, then update the resource
attributes with the id, fresh `created`/`updated` timestamps, the derived
`drone_uuid` and initial status `Booting`. `none` models the exception
escaping when the pattern finds no usable id. -/
def SlurmAdapter.deploy_resource (stdout : String) (now : Int)
    (site_name : String) : Option DeployAttrs :=
  (parseJobId stdout).map fun uuid =>
    { remote_resource_uuid := Int.ofNat uuid,
      created := now,
      updated := now,
      drone_uuid := droneUuid site_name (toString uuid),
      resource_status := ResourceStatus.Booting }

/-- Modelled from the spec: the lifecycle driver for a terminate request
(the drone state classes of `resources/dronestates.py` are not among the
embedded sources). Per §4.3 the `Terminating` state calls `terminate`
and "always → Deleted (terminate is treated as fire-and-forget; absence
of confirmation is not an error)"; per §7 the transient
`StatusUpdateInconclusive`/timeout kinds produced at the adapter boundary
are recovered locally and never surfaced. The adapter call itself and its
exception translation are the embedded `SlurmAdapter.terminate_resource`
and `SlurmAdapter.handle_exceptions`. -/
def terminatingStep (attrs : SlurmAttrs) (now : Int) (handleKnown : Bool) :
    Except HandledExc ResourceStatus :=
  match SlurmAdapter.terminate_resource attrs now handleKnown with
  | Except.ok _ => Except.ok ResourceStatus.Deleted
  | Except.error raw =>
      match SlurmAdapter.handle_exceptions raw with
      | HandledExc.tardisResourceStatusUpdateFailed =>
          Except.ok ResourceStatus.Deleted
      | HandledExc.tardisTimeout _ => Except.ok ResourceStatus.Deleted
      | e => Except.error e

/-- Modelled from the spec: the staleness-guarded refresh state of an
`AsyncCacheMap` (`utilities/asynccachemap.py` is not among the embedded
sources; `SlurmAdapter.__init__` constructs it with
`max_age=StatusUpdate * 60`, `slurm.py` lines 55-58). §4.2: a `get` whose
last successful refresh is younger than the maximum age returns the
cached snapshot without querying; otherwise it triggers exactly one
refresh. The refresh critical section is serialized (one outstanding bulk
query at a time), so a batch of concurrent callers is processed as a
sequence of guarded updates, each re-checking staleness after acquiring
the lock. -/
structure AsyncCacheMap where
  maxAge : Nat
  lastUpdate : Nat

/-- Modelled from the spec: one serialized `update_status` call at time
`now` — issue the bulk query (and record the refresh time) only when the
last refresh is at least `maxAge` old; the returned flag says whether a
bulk query was issued. -/
def AsyncCacheMap.update_status (c : AsyncCacheMap) (now : Nat) :
    AsyncCacheMap × Bool :=
  if c.maxAge ≤ now - c.lastUpdate then
    ({ c with lastUpdate := now }, true)
  else
    (c, false)

/-- The times at which a bulk query is issued when the serialized cache
processes a sequence of caller arrival times. -/
def AsyncCacheMap.bulkQueryTimes (c : AsyncCacheMap) :
    List Nat → List Nat
  | [] => []
  | t :: ts =>
      match c.update_status t with
      | (c', true) => t :: c'.bulkQueryTimes ts
      | (c', false) => c'.bulkQueryTimes ts

/-- The `max_age` the Slurm adapter configures: `StatusUpdate` minutes,
converted to seconds (`slurm.py` line 57). -/
def slurmStatusMaxAge (statusUpdate : Nat) : Nat := statusUpdate * 60

/-- The lifecycle states a `Drone` can hold (the state classes of
`resources/dronestates.py`; `drone.py` defaults `state` to
`RequestedState()`). Their identity is all the claims about `drone.py`
need. -/
inductive DroneLifecycleState where
  | requested
  | booting
  | running
  | stopped
  | terminating
  | deleted
  | err
  deriving DecidableEq, Repr

/-- One pending `observer.notify(drone)` call: the observer's identifier
paired with the drone id it would receive. -/
structure NotifyCall where
  observer : Nat
  droneId : String
  deriving DecidableEq, Repr

/-- A Python generator object as returned by calling a generator
function: the body has not run; `pending` records the `observer.notify`
calls that would execute only if the generator were iterated. -/
structure PyGenerator where
  pending : List NotifyCall
  deriving DecidableEq, Repr

/-- The `Drone` entity of `resources/drone.py`: site agent (reduced to
its `site_name`), observer list, current state, id, the display name
computed in `__init__`, and the four metric fields initialised to `0.0`.
Metric values are rationals (no floating-point arithmetic is ever
performed on them; they are only stored and returned). -/
structure Drone where
  site_name : String
  observers : List Nat
  _state : DroneLifecycleState
  id : String
  dns_name : String
  _allocation : Rat
  _demand : Rat
  _supply : Rat
  _utilisation : Rat
  deriving DecidableEq, Repr

namespace Drone

/-- `Drone.__init__` (`drone.py` lines 9-19): stores the agents, the
observer list and the state, keeps the given id, sets
`dns_name = '{}-{}.{}'.format('tardis', self.id, self.site_agent.site_name)`
(left-to-right string formatting), and initialises all four metrics
to `0.0`. -/
def init (site_name : String) (observers : List Nat) (id : String)
    (state : DroneLifecycleState) : Drone :=
  { site_name := site_name,
    observers := observers,
    _state := state,
    id := id,
    dns_name := "tardis" ++ "-" ++ id ++ "." ++ site_name,
    _allocation := 0,
    _demand := 0,
    _supply := 0,
    _utilisation := 0 }

/-- `Drone.notify_observers` (`drone.py` lines 65-67) is a generator
function — its body contains `yield from observer.notify(self)` — so a
call returns a generator object without running the body; the notify
calls it would perform are only pending. -/
def notify_observers (d : Drone) : PyGenerator :=
  { pending := d.observers.map fun o => { observer := o, droneId := d.id } }

/-- Iterating a generator to exhaustion executes its pending calls. -/
def PyGenerator.consume (g : PyGenerator) : List NotifyCall := g.pending

/-- The `state` property setter (`drone.py` lines 60-63):
`self._state = state` followed by the bare expression statement
`self.notify_observers()`. The call builds a generator object that the
setter discards without iterating, so none of its pending notify calls
run. The second component is the list of `observer.notify` invocations
actually executed before the assignment returns. -/
def setState (d : Drone) (s : DroneLifecycleState) :
    Drone × List NotifyCall :=
  let d' := { d with _state := s }
  let _discardedGenerator := d'.notify_observers
  (d', [])

/-- `Drone.register_observers` (`drone.py` lines 50-51):
`self._observers.append(agent)`. -/
def register_observers (d : Drone) (agent : Nat) : Drone :=
  { d with observers := d.observers ++ [agent] }

/-- `Drone.remove_observers` (`drone.py` lines 53-54):
`self._observers.remove(agent)` — drops the first occurrence. -/
def remove_observers (d : Drone) (agent : Nat) : Drone :=
  { d with observers := d.observers.eraseP fun o => o == agent }

/-- The `demand` property setter (`drone.py` lines 29-31). -/
def setDemand (d : Drone) (v : Rat) : Drone :=
  { d with _demand := v }

end Drone

/-- The operations the lifecycle machinery performs on a `Drone`. The
state-object actions run by `Drone.run` (`await self.state.run(self)`)
live in `resources/dronestates.py`, which is not among the embedded
sources; `runTick` models them from the spec. -/
inductive LifecycleOp where
  | assignState (s : DroneLifecycleState)
  | notifyObservers
  | registerObserver (agent : Nat)
  | removeObserver (agent : Nat)
  | setDemand (v : Rat)
  | runTick (next : DroneLifecycleState)
  deriving Repr

/-- Applying one lifecycle operation to a drone. `assignState` is the
`state` setter of `drone.py`; `notifyObservers` evaluates
`self.notify_observers()` (which builds a generator and mutates nothing);
`runTick` is modelled from the spec: one tick of `Drone.run` asks the
current state object to act, and per §4.3 a state action calls the
adapter or the status cache and then reassigns `state` through the same
setter — it never touches the metric fields, which are "written by the
capacity-planning collaborator, ... not mutated by the lifecycle machine
itself" (§3). -/
def Drone.applyOp (d : Drone) : LifecycleOp → Drone
  | LifecycleOp.assignState s => (d.setState s).1
  | LifecycleOp.notifyObservers => d
  | LifecycleOp.registerObserver a => d.register_observers a
  | LifecycleOp.removeObserver a => d.remove_observers a
  | LifecycleOp.setDemand v => d.setDemand v
  | LifecycleOp.runTick next => (d.setState next).1

section Theorems

/-- Helper: every bulk query issued by the serialized cache happens at
least `maxAge` after the last refresh recorded on entry. -/
theorem bulkQueryTimes_lower (ts : List Nat) :
    ∀ (c : AsyncCacheMap), 0 < c.maxAge →
      ∀ x ∈ c.bulkQueryTimes ts, c.lastUpdate + c.maxAge ≤ x := by
  induction ts with
  | nil => intro c _ x hx; simp [AsyncCacheMap.bulkQueryTimes] at hx
  | cons t ts ih =>
      intro c hA x hx
      simp only [AsyncCacheMap.bulkQueryTimes, AsyncCacheMap.update_status] at hx
      by_cases hcond : c.maxAge ≤ t - c.lastUpdate
      · simp only [if_pos hcond] at hx
        have hlt : c.lastUpdate + c.maxAge ≤ t := by omega
        rcases List.mem_cons.mp hx with hx | hx
        · omega
        · have := ih { c with lastUpdate := t } hA x hx
          simp at this
          omega
      · simp only [if_neg hcond] at hx
        exact ih c hA x hx

/-- Helper: the bulk-query times are pairwise at least `maxAge` apart. -/
theorem bulkQueryTimes_pairwise (ts : List Nat) :
    ∀ (c : AsyncCacheMap), 0 < c.maxAge →
      List.Pairwise (fun a b => a + c.maxAge ≤ b) (c.bulkQueryTimes ts) := by
  induction ts with
  | nil => intro c _; simp [AsyncCacheMap.bulkQueryTimes]
  | cons t ts ih =>
      intro c hA
      simp only [AsyncCacheMap.bulkQueryTimes, AsyncCacheMap.update_status]
      by_cases hcond : c.maxAge ≤ t - c.lastUpdate
      · simp only [if_pos hcond]
        refine List.pairwise_cons.mpr ⟨?_, ?_⟩
        · intro x hx
          have := bulkQueryTimes_lower ts { c with lastUpdate := t } hA x hx
          simpa using this
        · have := ih { c with lastUpdate := t } hA
          simpa using this
      · simp only [if_neg hcond]
        exact ih c hA

/-- Helper: a list whose members are pairwise at least `T` apart has at
most one member in any half-open window of length `T`. -/
theorem pairwise_window_count (l : List Nat) (T t0 : Nat)
    (hp : List.Pairwise (fun a b => a + T ≤ b) l) :
    (l.filter fun x => decide (t0 ≤ x) && decide (x < t0 + T)).length ≤ 1 := by
  induction l with
  | nil => simp
  | cons a l ih =>
      rcases List.pairwise_cons.mp hp with ⟨ha, hl⟩
      by_cases hin : t0 ≤ a ∧ a < t0 + T
      · have hrest :
            (l.filter fun x => decide (t0 ≤ x) && decide (x < t0 + T)) = [] := by
          refine List.filter_eq_nil_iff.mpr ?_
          intro x hx
          have h1 : a + T ≤ x := ha x hx
          have h2 : ¬ x < t0 + T := by omega
          simp [h2]
        simp [List.filter_cons, hin.1, hin.2, hrest]
      · have hfalse : ¬ ((decide (t0 ≤ a) && decide (a < t0 + T)) = true) := by
          simp only [Bool.and_eq_true, decide_eq_true_eq]
          exact hin
        rw [List.filter_cons, if_neg hfalse]
        exact ih hl

end Theorems

/-- C1: for a resource whose remote handle is absent from the latest
status batch, `resource_status` raises the transient
`TardisResourceStatusUpdateFailed` without touching the attributes when
the cache's last refresh is strictly before the resource's creation
time, and treats the resource as `Deleted` (via the substituted
`COMPLETED` state, which the translator maps to `Deleted`) when the last
refresh is at or after the creation time. -/
theorem resource_status_unknown_handle_race (cache : SlurmStatusCache)
    (attrs : SlurmAttrs) (now : Int)
    (habsent : cache.lookup (toString attrs.remote_resource_uuid) = none) :
    (cache.last_update < attrs.created →
      SlurmAdapter.resource_status cache attrs now =
        Except.error HandledExc.tardisResourceStatusUpdateFailed) ∧
    (attrs.created ≤ cache.last_update →
      SlurmAdapter.resource_status cache attrs now =
        Except.ok { attrs with updated := now,
                               resource_status := ResourceStatus.Deleted }) := by
  unfold SlurmAdapter.resource_status
  rw [habsent]
  constructor
  · intro hbefore
    have hneg : cache.last_update - attrs.created < 0 := by omega
    simp [hneg]
  · intro hafter
    have hneg : ¬ cache.last_update - attrs.created < 0 := by omega
    simp [hneg, SlurmAdapter.handle_response, mergeTranslated,
          slurmStateTranslator, slurmStateTable]

/-- Witness for C1 at concrete inputs: with an empty latest batch, a
resource created at time 9 is inconclusive against a cache refreshed at
time 5 and `Deleted` against a cache refreshed at time 9. -/
theorem resource_status_unknown_handle_race_witness :
    (({ data := [], last_update := 5 } : SlurmStatusCache).lookup
        (toString (3:Int)) = none ∧ (5:Int) < 9 ∧
      SlurmAdapter.resource_status { data := [], last_update := 5 }
        { remote_resource_uuid := 3, created := 9, updated := 0,
          resource_status := ResourceStatus.Booting } 42 =
        Except.error HandledExc.tardisResourceStatusUpdateFailed) ∧
    ((9:Int) ≤ 9 ∧
      SlurmAdapter.resource_status { data := [], last_update := 9 }
        { remote_resource_uuid := 3, created := 9, updated := 0,
          resource_status := ResourceStatus.Booting } 42 =
        Except.ok { remote_resource_uuid := 3, created := 9, updated := 42,
                    resource_status := ResourceStatus.Deleted }) :=
  ⟨⟨rfl, by decide,
    (resource_status_unknown_handle_race { data := [], last_update := 5 }
      { remote_resource_uuid := 3, created := 9, updated := 0,
        resource_status := ResourceStatus.Booting } 42 rfl).1 (by decide)⟩,
   ⟨by decide,
    (resource_status_unknown_handle_race { data := [], last_update := 9 }
      { remote_resource_uuid := 3, created := 9, updated := 0,
        resource_status := ResourceStatus.Booting } 42 rfl).2 (by decide)⟩⟩

/-- C2 (code bug): assigning `Drone.state` is claimed to invoke every
registered observer's `notify` synchronously before the assignment
returns, but the setter's call `self.notify_observers()` only creates a
generator object (the method body contains `yield from`) and discards it
uniterated, so zero notify calls execute — even though the drone has a
registered observer and the generator holds the pending call the claim
expects. -/
theorem drone_state_setter_runs_no_notify :
    (((Drone.init "mysite" [7] "drone1" DroneLifecycleState.requested).setState
        DroneLifecycleState.booting).2 = []) ∧
    (Drone.init "mysite" [7] "drone1"
        DroneLifecycleState.requested).observers = [7] ∧
    ((((Drone.init "mysite" [7] "drone1"
        DroneLifecycleState.requested).setState
        DroneLifecycleState.booting).1.notify_observers).pending =
      [{ observer := 7, droneId := "drone1" }]) := by
  exact ⟨rfl, rfl, rfl⟩

/-- C3 counterexample: the Slurm exception boundary translates a failed
external command invocation (`CommandExecutionFailure`) into the
transient `TardisResourceStatusUpdateFailed`, not into `TardisError`
carrying the original cause as the claim states. -/
theorem slurm_command_failure_counterexample :
    SlurmAdapter.handle_exceptions RawExc.commandExecutionFailure =
      HandledExc.tardisResourceStatusUpdateFailed ∧
    HandledExc.tardisResourceStatusUpdateFailed ≠
      HandledExc.tardisError RawExc.commandExecutionFailure :=
  ⟨rfl, by decide⟩

/-- C3 amended: both boundaries translate an asyncio `TimeoutError` into
`TardisTimeout` carrying the cause. For other errors the two adapters
differ: the Slurm boundary maps `CommandExecutionFailure` to the
transient `TardisResourceStatusUpdateFailed` (no cause), re-raises
`TardisResourceStatusUpdateFailed` unchanged, and maps every other
exception to `TardisError` with the cause; the Exoscale boundary maps
only `CloudStackClientException` to `TardisError` with the cause and
lets every other non-timeout exception propagate untranslated. -/
theorem handle_exceptions_translation_amended :
    (SlurmAdapter.handle_exceptions RawExc.timeoutError =
       HandledExc.tardisTimeout RawExc.timeoutError) ∧
    (ExoscaleAdapter.handle_exceptions RawExc.timeoutError =
       HandledExc.tardisTimeout RawExc.timeoutError) ∧
    (SlurmAdapter.handle_exceptions RawExc.commandExecutionFailure =
       HandledExc.tardisResourceStatusUpdateFailed) ∧
    (SlurmAdapter.handle_exceptions RawExc.tardisResourceStatusUpdateFailed =
       HandledExc.tardisResourceStatusUpdateFailed) ∧
    (∀ e : RawExc, e ≠ RawExc.commandExecutionFailure →
       e ≠ RawExc.tardisResourceStatusUpdateFailed →
       e ≠ RawExc.timeoutError →
       SlurmAdapter.handle_exceptions e = HandledExc.tardisError e) ∧
    (ExoscaleAdapter.handle_exceptions RawExc.cloudStackClientException =
       HandledExc.tardisError RawExc.cloudStackClientException) ∧
    (∀ e : RawExc, e ≠ RawExc.timeoutError →
       e ≠ RawExc.cloudStackClientException →
       ExoscaleAdapter.handle_exceptions e = HandledExc.uncaught e) := by
  refine ⟨rfl, rfl, rfl, rfl, ?_, rfl, ?_⟩
  · intro e h1 h2 h3
    cases e <;> simp_all [SlurmAdapter.handle_exceptions]
  · intro e h1 h2
    cases e <;> simp_all [ExoscaleAdapter.handle_exceptions]

/-- Witness for the amended C3: a generic exception becomes
`TardisError` with its cause at the Slurm boundary and propagates
untranslated at the Exoscale boundary. -/
theorem handle_exceptions_translation_amended_witness :
    (RawExc.otherError ≠ RawExc.commandExecutionFailure ∧
     RawExc.otherError ≠ RawExc.tardisResourceStatusUpdateFailed ∧
     RawExc.otherError ≠ RawExc.timeoutError ∧
     RawExc.valueError ≠ RawExc.timeoutError ∧
     RawExc.valueError ≠ RawExc.cloudStackClientException) ∧
    SlurmAdapter.handle_exceptions RawExc.otherError =
      HandledExc.tardisError RawExc.otherError ∧
    ExoscaleAdapter.handle_exceptions RawExc.valueError =
      HandledExc.uncaught RawExc.valueError :=
  ⟨by decide,
   handle_exceptions_translation_amended.2.2.2.2.1 RawExc.otherError
     (by decide) (by decide) (by decide),
   handle_exceptions_translation_amended.2.2.2.2.2.2 RawExc.valueError
     (by decide) (by decide)⟩

/-- C4: the terminate path is idempotent — both a first call (handle
still known) and a second call after the remote handle is gone (the
cancel command fails with `CommandExecutionFailure`, translated at the
boundary to the transient `TardisResourceStatusUpdateFailed`) raise no
error to the caller, and the resource ends in the `Deleted` state. -/
theorem terminate_idempotent_deleted (attrs : SlurmAttrs) (now now' : Int) :
    terminatingStep attrs now true = Except.ok ResourceStatus.Deleted ∧
    terminatingStep attrs now' false = Except.ok ResourceStatus.Deleted :=
  ⟨rfl, rfl⟩

/-- C5: however many callers arrive within one staleness window, the
serialized status cache issues bulk queries at least `maxAge` apart, so
at most one bulk query falls in any half-open window of length `maxAge`
— concurrent callers coalesce onto a single refresh. -/
theorem status_cache_single_bulk_query (c : AsyncCacheMap) (ts : List Nat)
    (t0 : Nat) (hA : 0 < c.maxAge) :
    List.Pairwise (fun a b => a + c.maxAge ≤ b) (c.bulkQueryTimes ts) ∧
    ((c.bulkQueryTimes ts).filter fun x =>
        decide (t0 ≤ x) && decide (x < t0 + c.maxAge)).length ≤ 1 := by
  have hp := bulkQueryTimes_pairwise ts c hA
  exact ⟨hp, pairwise_window_count _ _ _ hp⟩

/-- Witness for C5: four callers inside one 60-second window trigger at
most one bulk query. -/
theorem status_cache_single_bulk_query_witness :
    0 < (60:Nat) ∧
    (List.Pairwise (fun a b => a + (60:Nat) ≤ b)
       (AsyncCacheMap.bulkQueryTimes { maxAge := 60, lastUpdate := 0 }
         [100, 100, 100, 130]) ∧
     ((AsyncCacheMap.bulkQueryTimes { maxAge := 60, lastUpdate := 0 }
         [100, 100, 100, 130]).filter fun x =>
         decide (100 ≤ x) && decide (x < 100 + 60)).length ≤ 1) :=
  ⟨by decide,
   status_cache_single_bulk_query { maxAge := 60, lastUpdate := 0 }
     [100, 100, 100, 130] 100 (by decide)⟩

/-- C6: a successful `deploy_resource` returns the provider-native id
matched by `r"^Submitted batch job (\d*)"` on the sbatch stdout,
together with initial status `Booting` and fresh `created`/`updated`
timestamps. -/
theorem deploy_resource_parses_submit_output (stdout : String) (now : Int)
    (site : String) (n : Nat) (hparse : parseJobId stdout = some n) :
    SlurmAdapter.deploy_resource stdout now site =
      some { remote_resource_uuid := Int.ofNat n,
             created := now, updated := now,
             drone_uuid := droneUuid site (toString n),
             resource_status := ResourceStatus.Booting } := by
  simp [SlurmAdapter.deploy_resource, hparse]

/-- Witness for C6 at a concrete sbatch output. -/
theorem deploy_resource_parses_submit_output_witness :
    parseJobId "Submitted batch job 123" = some 123 ∧
    SlurmAdapter.deploy_resource "Submitted batch job 123" 5 "siteA" =
      some { remote_resource_uuid := Int.ofNat 123, created := 5,
             updated := 5,
             drone_uuid := droneUuid "siteA" (toString (123:Nat)),
             resource_status := ResourceStatus.Booting } :=
  ⟨by decide,
   deploy_resource_parses_submit_output "Submitted batch job 123" 5 "siteA"
     123 (by decide)⟩

/-- C7: the metrics `allocation`, `supply` and `utilisation` are
initialised to `0.0` by `Drone.__init__` and are preserved by every
lifecycle operation — state assignment, observer notification, observer
registration/removal, the `demand` setter, and a run tick. -/
theorem drone_metrics_frame :
    (∀ (site : String) (obs : List Nat) (id : String)
        (st : DroneLifecycleState),
       (Drone.init site obs id st)._allocation = 0 ∧
       (Drone.init site obs id st)._demand = 0 ∧
       (Drone.init site obs id st)._supply = 0 ∧
       (Drone.init site obs id st)._utilisation = 0) ∧
    (∀ (d : Drone) (op : LifecycleOp),
       (d.applyOp op)._allocation = d._allocation ∧
       (d.applyOp op)._supply = d._supply ∧
       (d.applyOp op)._utilisation = d._utilisation) := by
  refine ⟨fun site obs id st => ⟨rfl, rfl, rfl, rfl⟩, fun d op => ?_⟩
  cases op <;> exact ⟨rfl, rfl, rfl⟩

/-- C8: the display name computed at construction is
`'tardis-' + id + '.' + site_name`. -/
theorem drone_dns_name_formula (site : String) (obs : List Nat)
    (id : String) (st : DroneLifecycleState) :
    (Drone.init site obs id st).dns_name =
      "tardis-" ++ id ++ "." ++ site := rfl

/-- C9: the Slurm state translator is total with default `Error`: the
table holds exactly the 17 documented job state codes, and every state
string outside it maps to `ResourceStatus.Error`. -/
theorem slurm_translator_total :
    slurmJobStateCodes.length = 17 ∧
    ∀ s : String, s ∉ slurmJobStateCodes →
      slurmStateTranslator s = ResourceStatus.Error := by
  refine ⟨rfl, ?_⟩
  intro s hs
  have hnone : slurmStateTable.find? (fun p => p.1 == s) = none := by
    rw [List.find?_eq_none]
    intro p hp
    simp only [beq_iff_eq]
    intro heq
    exact hs (heq ▸ List.mem_map_of_mem Prod.fst hp)
  simp [slurmStateTranslator, hnone]

/-- Witness for C9: `NODE_FAIL` is a scheduler state outside the table
and maps to `Error`. -/
theorem slurm_translator_total_witness :
    "NODE_FAIL" ∉ slurmJobStateCodes ∧
    slurmStateTranslator "NODE_FAIL" = ResourceStatus.Error :=
  ⟨by decide, slurm_translator_total.2 "NODE_FAIL" (by decide)⟩

/-- C10: a successful `terminate_resource` writes status `Stopped` (not
`Deleted`) and a refreshed `updated` timestamp into the attributes it
returns, leaving the remote handle unchanged. -/
theorem terminate_resource_sets_stopped (attrs : SlurmAttrs) (now : Int) :
    SlurmAdapter.terminate_resource attrs now true =
      Except.ok { attrs with resource_status := ResourceStatus.Stopped,
                             updated := now } ∧
    ResourceStatus.Stopped ≠ ResourceStatus.Deleted :=
  ⟨rfl, by decide⟩
